import Mathlib

/-!
Verification development for the AEGIS ML core (anomaly detection and
rate-limit optimization).  The Python sources under `aegis-ml/models/` are
shallowly embedded: machine floats become exact rationals, integer results
become `Int`, fallible calls become `Except`, and the third-party fitted
estimators (scikit-learn's `StandardScaler` / `IsolationForest`) are treated
as pluggable black boxes supplied by fitting oracles, matching the spec's own
"pluggable outlier scorer" framing.  Real-valued library primitives with no
exact rational form (`exp`, `sqrt`) are likewise abstracted as function
parameters; every property proved below is independent of their values.
-/

namespace Aegis

/-- Python `round` on a value: banker's rounding (round half to even). -/
def pyRound (q : ℚ) : ℤ :=
  if q - ⌊q⌋ < 1/2 then ⌊q⌋
  else if 1/2 < q - ⌊q⌋ then ⌊q⌋ + 1
  else if ⌊q⌋ % 2 = 0 then ⌊q⌋ else ⌊q⌋ + 1

/-- Python `int(...)` applied to a float: truncation toward zero. -/
def pyTrunc (q : ℚ) : ℤ := if 0 ≤ q then ⌊q⌋ else ⌈q⌉

/-- Python integer floor division `a // b` (floor of the exact quotient). -/
def pyFloorDiv (a b : ℤ) : ℤ := ⌊(a : ℚ) / (b : ℚ)⌋

/-- `np.clip(x, 0, 1)`. -/
def clip01 (q : ℚ) : ℚ := min (max q 0) 1

lemma pyRound_bounds (q : ℚ) : ⌊q⌋ ≤ pyRound q ∧ pyRound q ≤ ⌊q⌋ + 1 := by
  unfold pyRound
  split_ifs <;> omega

/-- Rounding an integer returns the integer itself. -/
lemma pyRound_intCast (k : ℤ) : pyRound (k : ℚ) = k := by
  unfold pyRound
  rw [Int.floor_intCast]
  norm_num

/-- Banker's rounding is monotone. -/
lemma pyRound_mono {x y : ℚ} (h : x ≤ y) : pyRound x ≤ pyRound y := by
  rcases lt_or_eq_of_le (Int.floor_le_floor h) with hf | hf
  · have hx := (pyRound_bounds x).2
    have hy := (pyRound_bounds y).1
    omega
  · unfold pyRound
    rw [← hf]
    split_ifs <;> first | omega | linarith

lemma le_pyRound_of_le {k : ℤ} {q : ℚ} (h : (k : ℚ) ≤ q) : k ≤ pyRound q := by
  have := pyRound_mono h
  rwa [pyRound_intCast] at this

lemma pyRound_le_of_le {k : ℤ} {q : ℚ} (h : q ≤ (k : ℚ)) : pyRound q ≤ k := by
  have := pyRound_mono h
  rwa [pyRound_intCast] at this

/-- Banker's rounding lands within a half unit of the input. -/
lemma pyRound_close (q : ℚ) : |((pyRound q : ℤ) : ℚ) - q| ≤ 1/2 := by
  have h0 := Int.floor_le q
  have h1 := Int.lt_floor_add_one q
  rw [abs_le]
  unfold pyRound
  split_ifs with ha hb hc <;> constructor <;> push_cast <;> linarith

/-- `RateLimitOptimizer._round_to_nice_number`: round to a human-friendly
number, with band granularity growing with the magnitude of the input. -/
def roundToNice (v : ℚ) : ℤ :=
  if v < 10 then max 1 (pyRound v)
  else if v < 50 then pyRound (v / 5) * 5
  else if v < 100 then pyRound (v / 10) * 10
  else if v < 500 then pyRound (v / 25) * 25
  else if v < 1000 then pyRound (v / 50) * 50
  else if v < 5000 then pyRound (v / 100) * 100
  else pyRound (v / 500) * 500

lemma roundToNice_ge_10 {v : ℚ} (h : 10 ≤ v) : 10 ≤ roundToNice v := by
  unfold roundToNice
  split_ifs with h1 h2 h3 h4 h5 h6
  · linarith
  · have : ((2 : ℤ) : ℚ) ≤ v / 5 := by push_cast; linarith
    have := le_pyRound_of_le this
    omega
  · have : ((5 : ℤ) : ℚ) ≤ v / 10 := by push_cast; linarith
    have := le_pyRound_of_le this
    omega
  · have : ((4 : ℤ) : ℚ) ≤ v / 25 := by push_cast; linarith
    have := le_pyRound_of_le this
    omega
  · have : ((10 : ℤ) : ℚ) ≤ v / 50 := by push_cast; linarith
    have := le_pyRound_of_le this
    omega
  · have : ((10 : ℤ) : ℚ) ≤ v / 100 := by push_cast; linarith
    have := le_pyRound_of_le this
    omega
  · have : ((10 : ℤ) : ℚ) ≤ v / 500 := by push_cast; linarith
    have := le_pyRound_of_le this
    omega

lemma roundToNice_ge_50 {v : ℚ} (h : 50 ≤ v) : 50 ≤ roundToNice v := by
  unfold roundToNice
  split_ifs with h1 h2 h3 h4 h5 h6
  · linarith
  · linarith
  · have : ((5 : ℤ) : ℚ) ≤ v / 10 := by push_cast; linarith
    have := le_pyRound_of_le this
    omega
  · have : ((4 : ℤ) : ℚ) ≤ v / 25 := by push_cast; linarith
    have := le_pyRound_of_le this
    omega
  · have : ((10 : ℤ) : ℚ) ≤ v / 50 := by push_cast; linarith
    have := le_pyRound_of_le this
    omega
  · have : ((10 : ℤ) : ℚ) ≤ v / 100 := by push_cast; linarith
    have := le_pyRound_of_le this
    omega
  · have : ((10 : ℤ) : ℚ) ≤ v / 500 := by push_cast; linarith
    have := le_pyRound_of_le this
    omega

lemma roundToNice_ge_100 {v : ℚ} (h : 100 ≤ v) : 100 ≤ roundToNice v := by
  unfold roundToNice
  split_ifs with h1 h2 h3 h4 h5 h6
  · linarith
  · linarith
  · linarith
  · have : ((4 : ℤ) : ℚ) ≤ v / 25 := by push_cast; linarith
    have := le_pyRound_of_le this
    omega
  · have : ((10 : ℤ) : ℚ) ≤ v / 50 := by push_cast; linarith
    have := le_pyRound_of_le this
    omega
  · have : ((10 : ℤ) : ℚ) ≤ v / 100 := by push_cast; linarith
    have := le_pyRound_of_le this
    omega
  · have : ((10 : ℤ) : ℚ) ≤ v / 500 := by push_cast; linarith
    have := le_pyRound_of_le this
    omega

lemma roundToNice_ge_500 {v : ℚ} (h : 500 ≤ v) : 500 ≤ roundToNice v := by
  unfold roundToNice
  split_ifs with h1 h2 h3 h4 h5 h6
  · linarith
  · linarith
  · linarith
  · linarith
  · have : ((10 : ℤ) : ℚ) ≤ v / 50 := by push_cast; linarith
    have := le_pyRound_of_le this
    omega
  · have : ((10 : ℤ) : ℚ) ≤ v / 100 := by push_cast; linarith
    have := le_pyRound_of_le this
    omega
  · have : ((10 : ℤ) : ℚ) ≤ v / 500 := by push_cast; linarith
    have := le_pyRound_of_le this
    omega

lemma roundToNice_ge_1000 {v : ℚ} (h : 1000 ≤ v) : 1000 ≤ roundToNice v := by
  unfold roundToNice
  split_ifs with h1 h2 h3 h4 h5 h6
  · linarith
  · linarith
  · linarith
  · linarith
  · linarith
  · have : ((10 : ℤ) : ℚ) ≤ v / 100 := by push_cast; linarith
    have := le_pyRound_of_le this
    omega
  · have : ((10 : ℤ) : ℚ) ≤ v / 500 := by push_cast; linarith
    have := le_pyRound_of_le this
    omega

lemma roundToNice_ge_5000 {v : ℚ} (h : 5000 ≤ v) : 5000 ≤ roundToNice v := by
  unfold roundToNice
  split_ifs with h1 h2 h3 h4 h5 h6
  · linarith
  · linarith
  · linarith
  · linarith
  · linarith
  · linarith
  · have : ((10 : ℤ) : ℚ) ≤ v / 500 := by push_cast; linarith
    have := le_pyRound_of_le this
    omega

lemma roundToNice_le_10 {v : ℚ} (h : v < 10) : roundToNice v ≤ 10 := by
  unfold roundToNice
  rw [if_pos h]
  have hv : v ≤ ((10 : ℤ) : ℚ) := by push_cast; linarith
  have := pyRound_le_of_le hv
  omega

lemma roundToNice_le_50 {v : ℚ} (h : v < 50) : roundToNice v ≤ 50 := by
  unfold roundToNice
  split_ifs with h1
  · have hv : v ≤ ((10 : ℤ) : ℚ) := by push_cast; linarith
    have := pyRound_le_of_le hv
    omega
  · have hv : v / 5 ≤ ((10 : ℤ) : ℚ) := by push_cast; linarith
    have := pyRound_le_of_le hv
    omega

lemma roundToNice_le_100 {v : ℚ} (h : v < 100) : roundToNice v ≤ 100 := by
  unfold roundToNice
  split_ifs with h1 h2
  · have hv : v ≤ ((10 : ℤ) : ℚ) := by push_cast; linarith
    have := pyRound_le_of_le hv
    omega
  · have hv : v / 5 ≤ ((10 : ℤ) : ℚ) := by push_cast; linarith
    have := pyRound_le_of_le hv
    omega
  · have hv : v / 10 ≤ ((10 : ℤ) : ℚ) := by push_cast; linarith
    have := pyRound_le_of_le hv
    omega

lemma roundToNice_le_500 {v : ℚ} (h : v < 500) : roundToNice v ≤ 500 := by
  unfold roundToNice
  split_ifs with h1 h2 h3
  · have hv : v ≤ ((10 : ℤ) : ℚ) := by push_cast; linarith
    have := pyRound_le_of_le hv
    omega
  · have hv : v / 5 ≤ ((10 : ℤ) : ℚ) := by push_cast; linarith
    have := pyRound_le_of_le hv
    omega
  · have hv : v / 10 ≤ ((10 : ℤ) : ℚ) := by push_cast; linarith
    have := pyRound_le_of_le hv
    omega
  · have hv : v / 25 ≤ ((20 : ℤ) : ℚ) := by push_cast; linarith
    have := pyRound_le_of_le hv
    omega

lemma roundToNice_le_1000 {v : ℚ} (h : v < 1000) : roundToNice v ≤ 1000 := by
  unfold roundToNice
  split_ifs with h1 h2 h3 h4
  · have hv : v ≤ ((10 : ℤ) : ℚ) := by push_cast; linarith
    have := pyRound_le_of_le hv
    omega
  · have hv : v / 5 ≤ ((10 : ℤ) : ℚ) := by push_cast; linarith
    have := pyRound_le_of_le hv
    omega
  · have hv : v / 10 ≤ ((10 : ℤ) : ℚ) := by push_cast; linarith
    have := pyRound_le_of_le hv
    omega
  · have hv : v / 25 ≤ ((20 : ℤ) : ℚ) := by push_cast; linarith
    have := pyRound_le_of_le hv
    omega
  · have hv : v / 50 ≤ ((20 : ℤ) : ℚ) := by push_cast; linarith
    have := pyRound_le_of_le hv
    omega

lemma roundToNice_le_5000 {v : ℚ} (h : v < 5000) : roundToNice v ≤ 5000 := by
  unfold roundToNice
  split_ifs with h1 h2 h3 h4 h5
  · have hv : v ≤ ((10 : ℤ) : ℚ) := by push_cast; linarith
    have := pyRound_le_of_le hv
    omega
  · have hv : v / 5 ≤ ((10 : ℤ) : ℚ) := by push_cast; linarith
    have := pyRound_le_of_le hv
    omega
  · have hv : v / 10 ≤ ((10 : ℤ) : ℚ) := by push_cast; linarith
    have := pyRound_le_of_le hv
    omega
  · have hv : v / 25 ≤ ((20 : ℤ) : ℚ) := by push_cast; linarith
    have := pyRound_le_of_le hv
    omega
  · have hv : v / 50 ≤ ((20 : ℤ) : ℚ) := by push_cast; linarith
    have := pyRound_le_of_le hv
    omega
  · have hv : v / 100 ≤ ((50 : ℤ) : ℚ) := by push_cast; linarith
    have := pyRound_le_of_le hv
    omega

/-- The round-to-nice policy is monotone non-decreasing. -/
theorem roundToNice_mono {x y : ℚ} (hxy : x ≤ y) : roundToNice x ≤ roundToNice y := by
  by_cases hy10 : y < 10
  · have hx10 : x < 10 := lt_of_le_of_lt hxy hy10
    unfold roundToNice
    rw [if_pos hx10, if_pos hy10]
    exact max_le_max le_rfl (pyRound_mono hxy)
  · by_cases hy50 : y < 50
    · by_cases hx10 : x < 10
      · have h1 := roundToNice_le_10 hx10
        have h2 := roundToNice_ge_10 (le_of_not_lt hy10)
        omega
      · unfold roundToNice
        rw [if_neg hx10, if_neg hy10,
            if_pos (show x < 50 by linarith), if_pos hy50]
        have : x / 5 ≤ y / 5 := by linarith
        have := pyRound_mono this
        omega
    · by_cases hy100 : y < 100
      · by_cases hx50 : x < 50
        · have h1 := roundToNice_le_50 hx50
          have h2 := roundToNice_ge_50 (le_of_not_lt hy50)
          omega
        · unfold roundToNice
          rw [if_neg (show ¬x < 10 by push_neg at hx50 ⊢; linarith),
              if_neg hx50, if_neg hy10, if_neg hy50,
              if_pos (show x < 100 by linarith), if_pos hy100]
          have : x / 10 ≤ y / 10 := by linarith
          have := pyRound_mono this
          omega
      · by_cases hy500 : y < 500
        · by_cases hx100 : x < 100
          · have h1 := roundToNice_le_100 hx100
            have h2 := roundToNice_ge_100 (le_of_not_lt hy100)
            omega
          · unfold roundToNice
            rw [if_neg (show ¬x < 10 by push_neg at hx100 ⊢; linarith),
                if_neg (show ¬x < 50 by push_neg at hx100 ⊢; linarith),
                if_neg hx100, if_neg hy10, if_neg hy50, if_neg hy100,
                if_pos (show x < 500 by linarith), if_pos hy500]
            have : x / 25 ≤ y / 25 := by linarith
            have := pyRound_mono this
            omega
        · by_cases hy1000 : y < 1000
          · by_cases hx500 : x < 500
            · have h1 := roundToNice_le_500 hx500
              have h2 := roundToNice_ge_500 (le_of_not_lt hy500)
              omega
            · unfold roundToNice
              rw [if_neg (show ¬x < 10 by push_neg at hx500 ⊢; linarith),
                  if_neg (show ¬x < 50 by push_neg at hx500 ⊢; linarith),
                  if_neg (show ¬x < 100 by push_neg at hx500 ⊢; linarith),
                  if_neg hx500, if_neg hy10, if_neg hy50, if_neg hy100,
                  if_neg hy500, if_pos (show x < 1000 by linarith), if_pos hy1000]
              have : x / 50 ≤ y / 50 := by linarith
              have := pyRound_mono this
              omega
          · by_cases hy5000 : y < 5000
            · by_cases hx1000 : x < 1000
              · have h1 := roundToNice_le_1000 hx1000
                have h2 := roundToNice_ge_1000 (le_of_not_lt hy1000)
                omega
              · unfold roundToNice
                rw [if_neg (show ¬x < 10 by push_neg at hx1000 ⊢; linarith),
                    if_neg (show ¬x < 50 by push_neg at hx1000 ⊢; linarith),
                    if_neg (show ¬x < 100 by push_neg at hx1000 ⊢; linarith),
                    if_neg (show ¬x < 500 by push_neg at hx1000 ⊢; linarith),
                    if_neg hx1000, if_neg hy10, if_neg hy50, if_neg hy100,
                    if_neg hy500, if_neg hy1000,
                    if_pos (show x < 5000 by linarith), if_pos hy5000]
                have : x / 100 ≤ y / 100 := by linarith
                have := pyRound_mono this
                omega
            · by_cases hx5000 : x < 5000
              · have h1 := roundToNice_le_5000 hx5000
                have h2 := roundToNice_ge_5000 (le_of_not_lt hy5000)
                omega
              · unfold roundToNice
                rw [if_neg (show ¬x < 10 by push_neg at hx5000 ⊢; linarith),
                    if_neg (show ¬x < 50 by push_neg at hx5000 ⊢; linarith),
                    if_neg (show ¬x < 100 by push_neg at hx5000 ⊢; linarith),
                    if_neg (show ¬x < 500 by push_neg at hx5000 ⊢; linarith),
                    if_neg (show ¬x < 1000 by push_neg at hx5000 ⊢; linarith),
                    if_neg hx5000, if_neg hy10, if_neg hy50, if_neg hy100,
                    if_neg hy500, if_neg hy1000, if_neg hy5000]
                have : x / 500 ≤ y / 500 := by linarith
                have := pyRound_mono this
                omega

/-! Shared list statistics (exact models of the numpy/pandas calls used). -/

/-- Insert into a sorted list (ascending). -/
def insertSorted (x : ℚ) : List ℚ → List ℚ
  | [] => [x]
  | y :: ys => if x ≤ y then x :: y :: ys else y :: insertSorted x ys

/-- Ascending sort, as `np.sort` on finite values. -/
def sortQ (l : List ℚ) : List ℚ := l.foldr insertSorted []

/-- Arithmetic mean; 0 on the empty list (callers guard emptiness). -/
def meanQ (l : List ℚ) : ℚ := if l.length = 0 then 0 else l.sum / l.length

/-- `np.percentile(l, q)` with the default linear interpolation between the
two nearest order statistics. -/
def percentileQ (l : List ℚ) (q : ℚ) : ℚ :=
  let s := sortQ l
  let n := s.length
  if n = 0 then 0
  else
    let idx : ℚ := q / 100 * ((n : ℚ) - 1)
    let lo := (⌊idx⌋).toNat
    let hi := (⌈idx⌉).toNat
    let a := s.getD lo 0
    let b := s.getD hi 0
    a + (b - a) * (idx - ⌊idx⌋)

/-- Largest element, 0 on the empty list (callers guard emptiness). -/
def maxQ (l : List ℚ) : ℚ :=
  match l with
  | [] => 0
  | x :: xs => xs.foldl max x

/-! Rate-limit optimizer (`rate_limit_optimizer.py`). -/

/-- `OptimizationStrategy`. -/
inductive OptimizationStrategy
  | conservative
  | balanced
  | permissive
  | adaptive
deriving DecidableEq, Repr

/-- `RateLimitOptimizer.STRATEGY_MULTIPLIERS`. -/
def strategyMultiplier : OptimizationStrategy → ℚ
  | .conservative => 7/10
  | .balanced => 1
  | .permissive => 13/10
  | .adaptive => 1

/-- The tier strings accepted by `recommend` (already lower-cased; any other
string falls in the `unknown` bucket). -/
inductive TierName
  | free
  | basic
  | dflt
  | standard
  | premium
  | enterprise
  | unknown
deriving DecidableEq, Repr

/-- `RateLimitOptimizer._get_tier_multiplier` (dict lookup, default 1.0). -/
def tierMultiplier : TierName → ℚ
  | .free => 1/2
  | .basic => 3/4
  | .dflt => 1
  | .standard => 3/2
  | .premium => 5/2
  | .enterprise => 5
  | .unknown => 1

/-- `TierLevel`. -/
inductive TierLevel
  | FREE
  | BASIC
  | STANDARD
  | PREMIUM
  | ENTERPRISE
deriving DecidableEq, Repr

/-- `TierConfiguration`. -/
structure TierConfiguration where
  tier : TierLevel
  base_limit : ℤ
  burst_multiplier : ℚ
  max_limit : ℤ
  min_limit : ℤ
deriving DecidableEq, Repr

/-- `TierConfiguration.get_burst_size`: `int(base_limit * burst_multiplier)`. -/
def TierConfiguration.get_burst_size (c : TierConfiguration) : ℤ :=
  pyTrunc ((c.base_limit : ℚ) * c.burst_multiplier)

/-- `DEFAULT_TIER_CONFIGS`. -/
def defaultTierConfigs : TierLevel → TierConfiguration
  | .FREE => ⟨.FREE, 60, 12/10, 100, 10⟩
  | .BASIC => ⟨.BASIC, 100, 15/10, 300, 30⟩
  | .STANDARD => ⟨.STANDARD, 300, 15/10, 1000, 100⟩
  | .PREMIUM => ⟨.PREMIUM, 1000, 2, 5000, 300⟩
  | .ENTERPRISE => ⟨.ENTERPRISE, 5000, 25/10, 50000, 1000⟩

/-- Tier-string to `TierLevel` mapping used by
`_generate_default_recommendation` (default `STANDARD`). -/
def tierLevelOf : TierName → TierLevel
  | .free => .FREE
  | .basic => .BASIC
  | .dflt => .STANDARD
  | .standard => .STANDARD
  | .premium => .PREMIUM
  | .enterprise => .ENTERPRISE
  | .unknown => .STANDARD

/-- `EndpointProfile`.  Fields built by `analyze_traffic` are finite floats by
the "safe float" policy, so they are modelled as rationals. -/
structure EndpointProfile where
  endpoint : String
  method : String
  avg_requests_per_minute : ℚ
  peak_requests_per_minute : ℚ
  p95_requests_per_minute : ℚ
  avg_latency_ms : ℚ
  error_rate : ℚ
  unique_users : ℤ
  total_requests : ℤ
  typical_burst_size : ℤ
  time_of_day_variance : ℚ
deriving DecidableEq, Repr

/-- The warning messages `_generate_warnings` can append, and the no-data
warning of `_generate_default_recommendation`, as tags. -/
inductive RecWarning
  | limitReduced
  | highErrorRate
  | highVariance
  | limitedData
  | noData
deriving DecidableEq, Repr

/-- The reasoning text, as the template plus the data it cites
(`_build_reasoning`, and the fixed no-data sentence of the default path). -/
inductive RecReasoning
  | profiled (total : ℤ) (avgRpm peakRpm : ℚ) (strategy : OptimizationStrategy)
      (headroom : ℚ) (errorNote : Bool)
  | noData (tier : TierName)
deriving DecidableEq, Repr

/-- `RateLimitRecommendation`. -/
structure RateLimitRecommendation where
  endpoint : String
  tier : TierName
  current_limit : Option ℤ
  recommended_limit : ℤ
  recommended_burst : ℤ
  confidence : ℚ
  reasoning : RecReasoning
  strategy : OptimizationStrategy
  warnings : List RecWarning
  profile : Option EndpointProfile
deriving DecidableEq, Repr

/-- `RateLimitOptimizer` state. -/
structure RateLimitOptimizer where
  strategy : OptimizationStrategy
  headroom_percent : ℚ
  tier_configs : TierLevel → TierConfiguration
  endpoint_profiles : List (String × EndpointProfile)
  is_trained : Bool

/-- A freshly constructed optimizer (`RateLimitOptimizer.__init__` with the
default arguments). -/
def freshOptimizer : RateLimitOptimizer :=
  ⟨.balanced, 20, defaultTierConfigs, [], false⟩

/-- Dictionary lookup `self.endpoint_profiles.get(endpoint)`. -/
def lookupProfile (l : List (String × EndpointProfile)) (e : String) :
    Option EndpointProfile :=
  (l.find? (fun kv => kv.1 = e)).map (fun kv => kv.2)

/-- `RateLimitOptimizer._calculate_base_limit`. -/
def calcBaseLimit (opt : RateLimitOptimizer) (p : EndpointProfile) : ℤ :=
  let headroomMultiplier := 1 + opt.headroom_percent / 100
  let base := p.p95_requests_per_minute * headroomMultiplier
  roundToNice (max base 10)

/-- `RateLimitOptimizer._calculate_adaptive_multiplier`. -/
def calcAdaptiveMultiplier (p : EndpointProfile) : ℚ :=
  let varianceFactor := max (1/2) (1 - p.time_of_day_variance * (3/10))
  let errorFactor := max (1/2) (1 - p.error_rate * 2)
  let latencyFactor : ℚ := if p.avg_latency_ms < 100 then 1 else 8/10
  varianceFactor * errorFactor * latencyFactor

/-- The burst value computed by `_calculate_burst_size` before the final
round-to-nice step: `max(min_burst, min(typical_burst * 2, max_burst))` with
`min_burst = max(10, rate_limit // 6)` and `max_burst = rate_limit`. -/
def burstCandidate (p : EndpointProfile) (rate_limit : ℤ) : ℤ :=
  let typicalBurst := p.typical_burst_size
  let minBurst := max 10 (pyFloorDiv rate_limit 6)
  let maxBurst := rate_limit
  max minBurst (min (typicalBurst * 2) maxBurst)

/-- `RateLimitOptimizer._calculate_burst_size`. -/
def calcBurstSize (p : EndpointProfile) (rate_limit : ℤ) : ℤ :=
  roundToNice (burstCandidate p rate_limit)

/-- `RateLimitOptimizer._calculate_confidence`. -/
def calcOptConfidence (p : EndpointProfile) : ℚ :=
  let total : ℚ := p.total_requests
  let dataConfidence := if 0 < total then min 1 (total / 10000) else 0
  let varianceConfidence := max (3/10) (1 - p.time_of_day_variance)
  dataConfidence * (6/10) + varianceConfidence * (4/10)

/-- `RateLimitOptimizer._generate_warnings`. -/
def generateWarnings (p : EndpointProfile) (current_limit : Option ℤ)
    (recommended_limit : ℤ) : List RecWarning :=
  (match current_limit with
   | some c =>
     if c ≠ 0 ∧ (recommended_limit : ℚ) < (c : ℚ) * (7/10) then
       [RecWarning.limitReduced]
     else []
   | none => []) ++
  (if (1 : ℚ)/10 < p.error_rate then [RecWarning.highErrorRate] else []) ++
  (if (8 : ℚ)/10 < p.time_of_day_variance then [RecWarning.highVariance] else []) ++
  (if p.total_requests < 1000 then [RecWarning.limitedData] else [])

/-- `RateLimitOptimizer._build_reasoning`. -/
def buildReasoning (opt : RateLimitOptimizer) (p : EndpointProfile)
    (strategy : OptimizationStrategy) : RecReasoning :=
  .profiled p.total_requests p.avg_requests_per_minute p.peak_requests_per_minute
    strategy opt.headroom_percent (decide ((1 : ℚ)/20 < p.error_rate))

/-- `RateLimitOptimizer._generate_default_recommendation`. -/
def generateDefaultRecommendation (opt : RateLimitOptimizer) (endpoint : String)
    (tier : TierName) (current_limit : Option ℤ)
    (strategy : OptimizationStrategy) : RateLimitRecommendation :=
  let config := opt.tier_configs (tierLevelOf tier)
  let strategyMul := strategyMultiplier strategy
  let recommended_limit := pyTrunc ((config.base_limit : ℚ) * strategyMul)
  { endpoint := endpoint
    tier := tier
    current_limit := current_limit
    recommended_limit := recommended_limit
    recommended_burst := config.get_burst_size
    confidence := 3/10
    reasoning := .noData tier
    strategy := strategy
    warnings := [.noData]
    profile := none }

/-- `RateLimitOptimizer.recommend`. -/
def RateLimitOptimizer.recommend (opt : RateLimitOptimizer) (endpoint : String)
    (tier : TierName) (current_limit : Option ℤ)
    (strategyArg : Option OptimizationStrategy) : RateLimitRecommendation :=
  let strategy := strategyArg.getD opt.strategy
  match lookupProfile opt.endpoint_profiles endpoint with
  | none => generateDefaultRecommendation opt endpoint tier current_limit strategy
  | some profile =>
    let base_limit := calcBaseLimit opt profile
    let tierMul := tierMultiplier tier
    let tier_adjusted_limit := pyTrunc ((base_limit : ℚ) * tierMul)
    let strategyMul0 := strategyMultiplier strategy
    let strategyMul :=
      if strategy = .adaptive then calcAdaptiveMultiplier profile
      else strategyMul0
    let recommended_limit := pyTrunc ((tier_adjusted_limit : ℚ) * strategyMul)
    let recommended_burst := calcBurstSize profile recommended_limit
    { endpoint := endpoint
      tier := tier
      current_limit := current_limit
      recommended_limit := recommended_limit
      recommended_burst := recommended_burst
      confidence := calcOptConfidence profile
      reasoning := buildReasoning opt profile strategy
      strategy := strategy
      warnings := generateWarnings profile current_limit recommended_limit
      profile := some profile }

/-- `RateLimitOptimizer.recommend_all`: one `recommend` per profiled endpoint,
with no trained-state check of its own. -/
def RateLimitOptimizer.recommendAll (opt : RateLimitOptimizer) (tier : TierName)
    (strategyArg : Option OptimizationStrategy) : List RateLimitRecommendation :=
  opt.endpoint_profiles.map (fun kv => opt.recommend kv.1 tier none strategyArg)

/-- A raw request record as used by `_build_endpoint_profile` (latency and
status column of one row). -/
structure ReqRecord where
  response_time_ms : ℚ
  status_code : ℤ
deriving DecidableEq, Repr

/-- `pd.Series.std` (sample standard deviation, `ddof = 1`); `NaN` for fewer
than two points, which the safe-float policy turns into 0.  The square root
has no exact rational form and is supplied as the oracle `sqrtA`. -/
def sampleStd (sqrtA : ℚ → ℚ) (l : List ℚ) : ℚ :=
  if l.length < 2 then 0
  else
    let m := meanQ l
    sqrtA ((l.map (fun x => (x - m) ^ 2)).sum / ((l.length : ℚ) - 1))

/-- `RateLimitOptimizer._build_endpoint_profile`.  The pandas time-bucketing
collaborators (`resample("1min").size()`, `resample("1h").size()`) supply the
per-minute and hourly count series; the `user_id` `nunique` and the modal
`method` aggregates are likewise passed through. -/
def buildEndpointProfile (sqrtA : ℚ → ℚ) (endpoint method : String)
    (uniqueUsers : ℤ) (minuteCounts hourlyCounts : List ℕ)
    (records : List ReqRecord) : EndpointProfile :=
  let mc : List ℚ := minuteCounts.map (fun n => (n : ℚ))
  let hc : List ℚ := hourlyCounts.map (fun n => (n : ℚ))
  let avgRpm := if 0 < mc.length then meanQ mc else 0
  let peakRpm := if 0 < mc.length then maxQ mc else 0
  let p95Rpm := if 0 < mc.length then percentileQ mc 95 else 0
  let hourlyMean := meanQ hc
  let hourlyStd := sampleStd sqrtA hc
  let variance := if 0 < hourlyMean then hourlyStd / hourlyMean else 0
  let typicalBurst := max 1 (pyTrunc ((peakRpm / 60) * 3))
  let avgLatency :=
    if 0 < records.length then meanQ (records.map (fun r => r.response_time_ms))
    else 0
  let errorRate :=
    if 0 < records.length then
      ((records.filter (fun r => 400 ≤ r.status_code)).length : ℚ) /
        (records.length : ℚ)
    else 0
  { endpoint := endpoint
    method := method
    avg_requests_per_minute := avgRpm
    peak_requests_per_minute := peakRpm
    p95_requests_per_minute := p95Rpm
    avg_latency_ms := avgLatency
    error_rate := errorRate
    unique_users := uniqueUsers
    total_requests := records.length
    typical_burst_size := typicalBurst
    time_of_day_variance := variance }

/-! Anomaly detector (`anomaly_detector.py`). -/

/-- A raw float cell of the training frame: finite, `NaN`, or an infinity. -/
inductive PyFloat
  | val (q : ℚ)
  | nan
  | inf
  | ninf
deriving DecidableEq, Repr

/-- Whether a cell is `NaN`. -/
def PyFloat.isNaN : PyFloat → Bool
  | .nan => true
  | _ => false

/-- Numeric order used by sorting, with `-inf` lowest and `inf` highest
(`NaN` cells are filtered out before any sort). -/
def PyFloat.le : PyFloat → PyFloat → Bool
  | .ninf, _ => true
  | _, .ninf => false
  | _, .inf => true
  | .inf, _ => false
  | .val a, .val b => a ≤ b
  | .nan, _ => true
  | _, .nan => false

/-- Average of two cells, for the even-length median. -/
def PyFloat.avg2 : PyFloat → PyFloat → PyFloat
  | .val a, .val b => .val ((a + b) / 2)
  | .nan, _ => .nan
  | _, .nan => .nan
  | .inf, .inf => .inf
  | .ninf, .ninf => .ninf
  | .inf, .ninf => .nan
  | .ninf, .inf => .nan
  | .inf, .val _ => .inf
  | .val _, .inf => .inf
  | .ninf, .val _ => .ninf
  | .val _, .ninf => .ninf

/-- Insertion step for sorting `PyFloat` cells. -/
def insertPF (x : PyFloat) : List PyFloat → List PyFloat
  | [] => [x]
  | y :: ys => if x.le y then x :: y :: ys else y :: insertPF x ys

/-- `pd.Series.median()`: drop `NaN`, sort, take the middle element (or the
average of the two middle elements); `NaN` when nothing remains. -/
def pandasMedian (l : List PyFloat) : PyFloat :=
  let v := l.filter (fun x => ¬ x.isNaN)
  if v.length = 0 then .nan
  else
    let s := v.foldr insertPF []
    let n := s.length
    if n % 2 = 1 then s.getD (n / 2) .nan
    else PyFloat.avg2 (s.getD (n / 2 - 1) .nan) (s.getD (n / 2) .nan)

/-- One row of the training frame, in `FEATURE_NAMES` order. -/
structure RawRow where
  requests_per_second : PyFloat
  avg_latency_ms : PyFloat
  p95_latency_ms : PyFloat
  p99_latency_ms : PyFloat
  error_rate : PyFloat
deriving DecidableEq, Repr

/-- Fill a `NaN` cell with the column median (`df.fillna(df.median())`). -/
def fillCell (med : PyFloat) (x : PyFloat) : PyFloat :=
  if x.isNaN then med else x

/-- Keep a cell only if finite (`df.replace([inf, -inf], nan).dropna()`). -/
def PyFloat.toFinite : PyFloat → Option ℚ
  | .val q => some q
  | _ => none

/-- The data-cleaning pipeline at the top of `AnomalyDetector.train`:
median-fill missing values per column, then drop every row that still has a
non-finite cell.  Returns the surviving rows as exact feature vectors. -/
def cleanTrainingData (rows : List RawRow) : List (List ℚ) :=
  let m1 := pandasMedian (rows.map (fun r => r.requests_per_second))
  let m2 := pandasMedian (rows.map (fun r => r.avg_latency_ms))
  let m3 := pandasMedian (rows.map (fun r => r.p95_latency_ms))
  let m4 := pandasMedian (rows.map (fun r => r.p99_latency_ms))
  let m5 := pandasMedian (rows.map (fun r => r.error_rate))
  rows.filterMap (fun r =>
    match (fillCell m1 r.requests_per_second).toFinite,
        (fillCell m2 r.avg_latency_ms).toFinite,
        (fillCell m3 r.p95_latency_ms).toFinite,
        (fillCell m4 r.p99_latency_ms).toFinite,
        (fillCell m5 r.error_rate).toFinite with
    | some a, some b, some c, some d, some e => some [a, b, c, d, e]
    | _, _, _, _, _ => none)

/-- A fitted `StandardScaler`, abstracted to its transform. -/
structure Scaler where
  transform : List ℚ → List ℚ

/-- A fitted `IsolationForest`, abstracted to its `decision_function`.
`predict` returns `-1` exactly on negative decision scores. -/
structure Forest where
  decision : List ℚ → ℚ

/-- `IsolationForest.predict` on one sample. -/
def Forest.predict (f : Forest) (x : List ℚ) : ℤ :=
  if f.decision x < 0 then -1 else 1

/-- Per-feature statistics of `_compute_baselines`. -/
structure FeatureStats where
  mean : ℚ
  std : ℚ
  median : ℚ
  q25 : ℚ
  q75 : ℚ
  iqr : ℚ
  minv : ℚ
  maxv : ℚ
deriving DecidableEq, Repr

/-- Baselines for the five monitored features. -/
structure BaselineSet where
  requests_per_second : FeatureStats
  avg_latency_ms : FeatureStats
  p95_latency_ms : FeatureStats
  p99_latency_ms : FeatureStats
  error_rate : FeatureStats
deriving DecidableEq, Repr

/-- Statistics of one feature column (`np.std` is the population standard
deviation, whose square root is supplied by the oracle `sqrtA`). -/
def computeFeatureStats (sqrtA : ℚ → ℚ) (values : List ℚ) : FeatureStats :=
  let m := meanQ values
  let variance := (values.map (fun x => (x - m) ^ 2)).sum /
    (if values.length = 0 then 1 else (values.length : ℚ))
  let q25 := percentileQ values 25
  let q75 := percentileQ values 75
  { mean := m
    std := sqrtA variance
    median := percentileQ values 50
    q25 := q25
    q75 := q75
    iqr := q75 - q25
    minv := (sortQ values).headD 0
    maxv := maxQ values }

/-- `AnomalyDetector._compute_baselines` over the cleaned frame. -/
def computeBaselines (sqrtA : ℚ → ℚ) (x : List (List ℚ)) : BaselineSet :=
  { requests_per_second := computeFeatureStats sqrtA (x.map (fun r => r.getD 0 0))
    avg_latency_ms := computeFeatureStats sqrtA (x.map (fun r => r.getD 1 0))
    p95_latency_ms := computeFeatureStats sqrtA (x.map (fun r => r.getD 2 0))
    p99_latency_ms := computeFeatureStats sqrtA (x.map (fun r => r.getD 3 0))
    error_rate := computeFeatureStats sqrtA (x.map (fun r => r.getD 4 0)) }

/-- `AnomalyDetector` state.  `baselines` is `none` before training (the
empty dict). -/
structure AnomalyDetector where
  contamination : ℚ
  threshold_multiplier : ℚ
  forest : Forest
  scaler : Scaler
  baselines : Option BaselineSet
  is_trained : Bool
  score_threshold : ℚ

/-- `AnomalyDetector.__init__` (the unfitted estimators are placeholders;
they are replaced before any use, since `detect` requires `is_trained`). -/
def initDetector (contamination threshold_multiplier : ℚ) : AnomalyDetector :=
  { contamination := contamination
    threshold_multiplier := threshold_multiplier
    forest := ⟨fun _ => 0⟩
    scaler := ⟨fun x => x⟩
    baselines := none
    is_trained := false
    score_threshold := -(1/2) }

/-- Training failures. -/
inductive TrainError
  | insufficientData
deriving DecidableEq, Repr

/-- The parts of the training summary that the numeric model captures. -/
structure TrainingSummary where
  samples : ℕ
  contamination : ℚ
  score_threshold : ℚ
deriving DecidableEq, Repr

/-- `AnomalyDetector.train`.  `fitScaler` and `fitForest` are the scikit-learn
fitting collaborators; everything around them follows the source: clean the
frame, require at least 10 rows, fit, compute baselines, then calibrate the
score threshold as the `(1 - contamination)`-percentile of the training
decision scores.  On failure the state is returned unchanged. -/
def train (fitScaler : List (List ℚ) → Scaler)
    (fitForest : List (List ℚ) → Forest) (sqrtA : ℚ → ℚ)
    (st : AnomalyDetector) (rows : List RawRow) :
    AnomalyDetector × Except TrainError TrainingSummary :=
  let clean := cleanTrainingData rows
  if clean.length < 10 then (st, .error .insufficientData)
  else
    let scaler := fitScaler clean
    let xScaled := clean.map scaler.transform
    let forest := fitForest xScaled
    let baselines := computeBaselines sqrtA clean
    let scores := xScaled.map forest.decision
    let threshold := percentileQ scores ((1 - st.contamination) * 100)
    ({ st with
        scaler := scaler
        forest := forest
        baselines := some baselines
        is_trained := true
        score_threshold := threshold },
     .ok ⟨clean.length, st.contamination, threshold⟩)

/-- `TrafficMetrics` features (the timestamp and status counters do not feed
the numeric pipeline). -/
structure TrafficMetrics where
  requests_per_second : ℚ
  avg_latency_ms : ℚ
  p95_latency_ms : ℚ
  p99_latency_ms : ℚ
  error_rate : ℚ
deriving DecidableEq, Repr

/-- `TrafficMetrics.to_feature_array`. -/
def TrafficMetrics.featureArray (m : TrafficMetrics) : List ℚ :=
  [m.requests_per_second, m.avg_latency_ms, m.p95_latency_ms,
   m.p99_latency_ms, m.error_rate]

/-- `AnomalyType`. -/
inductive AnomalyType
  | trafficSpike
  | latencySpike
  | errorRateSpike
  | trafficDrop
  | patternAnomaly
  | multiDimensional
deriving DecidableEq, Repr

/-- `AnomalySeverity`. -/
inductive AnomalySeverity
  | low
  | medium
  | high
  | critical
deriving DecidableEq, Repr

/-- The explanation text as its template plus the data it cites
(`_build_explanation`, and the confirmation wrapper added by the real-time
tracker). -/
inductive Explanation
  | withinNormal
  | trafficSpike (observed baseline : ℚ)
  | trafficDrop (observed baseline : ℚ)
  | latencySpike (avgObserved p95Observed baseline : ℚ)
  | errorRateSpike (observed baseline : ℚ)
  | patternAnomaly
  | multiDimensional
  | genericAnomaly
  | confirmed (inner : Explanation) (streak : ℕ)
deriving DecidableEq, Repr

/-- `AnomalyResult`. -/
structure AnomalyResult where
  is_anomaly : Bool
  score : ℚ
  normalized_score : ℚ
  anomaly_type : Option AnomalyType
  severity : Option AnomalySeverity
  confidence : ℚ
  features : List (String × ℚ)
  explanation : Explanation
deriving DecidableEq, Repr

/-- `AnomalyDetector._compute_z_score`. -/
def zScore (value mean std : ℚ) : ℚ :=
  if std = 0 then 0 else (value - mean) / std

/-- First maximal entry of a non-empty score list, as Python's `max` over a
dict picks the first key attaining the maximum (insertion order). -/
def argmaxFirst : List (AnomalyType × ℚ) → (AnomalyType × ℚ)
  | [] => (.patternAnomaly, 1/2)
  | [e] => e
  | e :: e2 :: rest =>
    let m := argmaxFirst (e2 :: rest)
    if e.2 < m.2 then m else e

/-- Maximum score among the fired entries. -/
def maxTypeScore : List (AnomalyType × ℚ) → ℚ
  | [] => 0
  | e :: rest => rest.foldl (fun a x => max a x.2) e.2

/-- `AnomalyDetector._identify_anomaly_type`: z-score each monitored feature
against its baseline, collect fired candidate types in dict insertion order,
then resolve.  Always yields a type (pattern anomaly when nothing fired). -/
def identifyAnomalyType (st : AnomalyDetector) (m : TrafficMetrics) :
    AnomalyType × ℚ :=
  match st.baselines with
  | none => (.patternAnomaly, 1/2)
  | some b =>
    let tm := st.threshold_multiplier
    let zRps := zScore m.requests_per_second b.requests_per_second.mean
      b.requests_per_second.std
    let rpsEntry : Option (AnomalyType × ℚ) :=
      if tm < zRps then some (.trafficSpike, zRps)
      else if zRps < -tm then some (.trafficDrop, |zRps|)
      else none
    let zAvg := zScore m.avg_latency_ms b.avg_latency_ms.mean b.avg_latency_ms.std
    let zP95 := zScore m.p95_latency_ms b.p95_latency_ms.mean b.p95_latency_ms.std
    let latScore : Option ℚ :=
      let afterAvg : Option ℚ := if tm < zAvg then some zAvg else none
      if tm < zP95 then some (max (afterAvg.getD 0) zP95) else afterAvg
    let latEntry : Option (AnomalyType × ℚ) :=
      latScore.map (fun s => (.latencySpike, s))
    let zErr := zScore m.error_rate b.error_rate.mean b.error_rate.std
    let errEntry : Option (AnomalyType × ℚ) :=
      if tm < zErr then some (.errorRateSpike, zErr) else none
    let entries := [rpsEntry, latEntry, errEntry].filterMap id
    match entries with
    | [] => (.patternAnomaly, 1/2)
    | _ =>
      if 2 < entries.length then (.multiDimensional, maxTypeScore entries)
      else argmaxFirst entries

/-- `AnomalyDetector._determine_severity`. -/
def determineSeverity (normalized : ℚ) : AnomalySeverity :=
  if 9/10 ≤ normalized then .critical
  else if 3/4 ≤ normalized then .high
  else if 3/5 ≤ normalized then .medium
  else .low

/-- `AnomalyDetector._normalize_score`: logistic transform of the raw score
then clip to `[0, 1]`.  The exponential is the oracle `expA`. -/
def normalizeScore (expA : ℚ → ℚ) (raw : ℚ) : ℚ :=
  clip01 (1 / (1 + expA (raw * 5)))

/-- `AnomalyDetector._calculate_confidence`. -/
def calcConfidence (expA : ℚ → ℚ) (isolationScore typeScore : ℚ) : ℚ :=
  let ifConfidence := 1 / (1 + expA (isolationScore * 3))
  let typeConfidence := if 0 < typeScore then min (typeScore / 5) 1 else 1/2
  clip01 ((7/10) * ifConfidence + (3/10) * typeConfidence)

/-- Baseline mean cited by an explanation template
(`self.baselines.get(name, {}).get("mean", 0)`). -/
def baselineMean (st : AnomalyDetector) (sel : BaselineSet → FeatureStats) : ℚ :=
  match st.baselines with
  | none => 0
  | some b => (sel b).mean

/-- `AnomalyDetector._build_explanation`. -/
def buildExplanation (st : AnomalyDetector) (m : TrafficMetrics)
    (isAnomaly : Bool) (anomalyType : Option AnomalyType) : Explanation :=
  if !isAnomaly then .withinNormal
  else
    match anomalyType with
    | none => .genericAnomaly
    | some t =>
      match t with
      | .trafficSpike =>
        .trafficSpike m.requests_per_second
          (baselineMean st (fun b => b.requests_per_second))
      | .trafficDrop =>
        .trafficDrop m.requests_per_second
          (baselineMean st (fun b => b.requests_per_second))
      | .latencySpike =>
        .latencySpike m.avg_latency_ms m.p95_latency_ms
          (baselineMean st (fun b => b.avg_latency_ms))
      | .errorRateSpike =>
        .errorRateSpike m.error_rate (baselineMean st (fun b => b.error_rate))
      | .patternAnomaly => .patternAnomaly
      | .multiDimensional => .multiDimensional

/-- Detection failures (`RuntimeError("Model must be trained ...")`). -/
inductive DetectError
  | modelNotTrained
deriving DecidableEq, Repr

/-- `AnomalyDetector.detect`. -/
def detect (expA : ℚ → ℚ) (st : AnomalyDetector) (m : TrafficMetrics) :
    Except DetectError AnomalyResult :=
  if !st.is_trained then .error .modelNotTrained
  else
    let x := m.featureArray
    let xScaled := st.scaler.transform x
    let rawScore := st.forest.decision xScaled
    let prediction := st.forest.predict xScaled
    let normalized := normalizeScore expA rawScore
    let isAnomaly := decide (prediction = -1)
    let typed := identifyAnomalyType st m
    let severity := if isAnomaly then some (determineSeverity normalized) else none
    let confidence := calcConfidence expA rawScore typed.2
    let explanation := buildExplanation st m isAnomaly (some typed.1)
    .ok
      { is_anomaly := isAnomaly
        score := rawScore
        normalized_score := normalized
        anomaly_type := if isAnomaly then some typed.1 else none
        severity := severity
        confidence := confidence
        features := List.zip
          ["requests_per_second", "avg_latency_ms", "p95_latency_ms",
           "p99_latency_ms", "error_rate"] x
        explanation := explanation }

/-! Real-time tracker (`RealTimeAnomalyDetector`). -/

/-- Tracker state. -/
structure RealTimeState where
  detector : AnomalyDetector
  window_size : ℕ
  persistence_threshold : ℕ
  window : List TrafficMetrics
  anomaly_streak : ℕ
  last_results : List AnomalyResult

/-- A freshly constructed tracker. -/
def initRealTime (d : AnomalyDetector) (windowSize persistenceThreshold : ℕ) :
    RealTimeState :=
  ⟨d, windowSize, persistenceThreshold, [], 0, []⟩

/-- Append then `pop(0)` while over capacity
(`lst.append(x); if len(lst) > n: lst.pop(0)`). -/
def pushBounded {α : Type} (n : ℕ) (l : List α) (a : α) : List α :=
  if n < (l ++ [a]).length then (l ++ [a]).tail else l ++ [a]

/-- `RealTimeAnomalyDetector.process`: slide the window, run the base
detector, track the persistence streak, confirm a persistent anomaly, and
record the result in the bounded history.  If the base detector raises, the
window has already been mutated, matching the source order. -/
def process (expA : ℚ → ℚ) (st : RealTimeState) (m : TrafficMetrics) :
    RealTimeState × Except DetectError AnomalyResult :=
  let window := pushBounded st.window_size st.window m
  match detect expA st.detector m with
  | .error e => ({ st with window := window }, .error e)
  | .ok result =>
    let streak := if result.is_anomaly then st.anomaly_streak + 1 else 0
    let result :=
      if st.persistence_threshold ≤ streak then
        { result with
            confidence := min (result.confidence * (12/10)) 1
            explanation := .confirmed result.explanation streak }
      else result
    let lastResults := pushBounded st.window_size st.last_results result
    ({ st with
        window := window
        anomaly_streak := streak
        last_results := lastResults },
     .ok result)

/-- Fold `process` over a batch of samples, keeping the state. -/
def processAll (expA : ℚ → ℚ) (st : RealTimeState)
    (ms : List TrafficMetrics) : RealTimeState :=
  ms.foldl (fun s m => (process expA s m).1) st

/-- `RealTimeAnomalyDetector.reset`. -/
def resetRealTime (st : RealTimeState) : RealTimeState :=
  { st with window := [], anomaly_streak := 0, last_results := [] }

/-! Concrete oracle instances used by witnesses and counterexamples. -/

/-- Exact rational square root on perfect squares, floor-style approximation
elsewhere (stands in for the real square root in concrete evaluations). -/
def ratSqrt (q : ℚ) : ℚ := ((Int.sqrt q.num : ℤ) : ℚ) / ((Nat.sqrt q.den : ℕ) : ℚ)

/-- A concrete fitted-scaler oracle: the identity transform. -/
def exFitScaler : List (List ℚ) → Scaler := fun _ => ⟨fun x => x⟩

/-- A concrete fitted-forest oracle: the decision score is the first scaled
feature. -/
def exFitForest : List (List ℚ) → Forest := fun _ => ⟨fun v => v.headD 0⟩

/-- A concrete exponential oracle for evaluating witnesses. -/
def exExp : ℚ → ℚ := fun _ => 1

/-- Extract the payload of a successful call. -/
def exceptToOption {ε α : Type} : Except ε α → Option α
  | .ok a => some a
  | .error _ => none

/-- Placeholder result for total extraction. -/
def defaultAnomalyResult : AnomalyResult :=
  ⟨false, 0, 0, none, none, 0, [], .withinNormal⟩

/-! Supporting lemmas. -/

lemma clip01_nonneg (q : ℚ) : 0 ≤ clip01 q :=
  le_min (le_max_right q 0) (by norm_num)

lemma clip01_le_one (q : ℚ) : clip01 q ≤ 1 := min_le_right _ _

lemma pyTrunc_mono {x y : ℚ} (h : x ≤ y) : pyTrunc x ≤ pyTrunc y := by
  unfold pyTrunc
  by_cases hx : (0 : ℚ) ≤ x
  · rw [if_pos hx, if_pos (le_trans hx h)]
    exact Int.floor_le_floor h
  · rw [if_neg hx]
    by_cases hy : (0 : ℚ) ≤ y
    · rw [if_pos hy]
      have h1 : ⌈x⌉ ≤ (0 : ℤ) := by
        rw [Int.ceil_le]
        push_cast
        linarith [lt_of_not_ge hx]
      have h2 : (0 : ℤ) ≤ ⌊y⌋ := Int.floor_nonneg.mpr hy
      omega
    · rw [if_neg hy]
      exact Int.ceil_le_ceil h

lemma pyTrunc_nonneg {q : ℚ} (h : 0 ≤ q) : 0 ≤ pyTrunc q := by
  unfold pyTrunc
  rw [if_pos h]
  exact Int.floor_nonneg.mpr h

lemma strategyMultiplier_nonneg (s : OptimizationStrategy) :
    0 ≤ strategyMultiplier s := by
  cases s <;> norm_num [strategyMultiplier]

lemma calcAdaptiveMultiplier_nonneg (p : EndpointProfile) :
    0 ≤ calcAdaptiveMultiplier p := by
  unfold calcAdaptiveMultiplier
  have h1 : (0 : ℚ) ≤ max (1/2) (1 - p.time_of_day_variance * (3/10)) :=
    le_trans (by norm_num) (le_max_left _ _)
  have h2 : (0 : ℚ) ≤ max (1/2) (1 - p.error_rate * 2) :=
    le_trans (by norm_num) (le_max_left _ _)
  have h3 : (0 : ℚ) ≤ (if p.avg_latency_ms < 100 then (1 : ℚ) else 8/10) := by
    split_ifs <;> norm_num
  exact mul_nonneg (mul_nonneg h1 h2) h3

lemma calcBaseLimit_ge_10 (opt : RateLimitOptimizer) (p : EndpointProfile) :
    10 ≤ calcBaseLimit opt p := by
  unfold calcBaseLimit
  exact roundToNice_ge_10 (le_max_right _ _)

lemma pyFloorDiv_six_le {l : ℤ} (h : 0 ≤ l) : pyFloorDiv l 6 ≤ l := by
  unfold pyFloorDiv
  have hq : ((l : ℚ)) / 6 ≤ (l : ℚ) := by
    have : (0 : ℚ) ≤ (l : ℚ) := by exact_mod_cast h
    linarith
  have := Int.floor_le_floor hq
  rwa [Int.floor_intCast] at this

/-- The two-step truncated multiplication chain behind the tier ordering. -/
lemma tier_chain_step {base : ℤ} (hbase : 0 ≤ base) {sm : ℚ} (hsm : 0 ≤ sm)
    {a b : ℚ} (hab : a ≤ b) :
    pyTrunc ((pyTrunc ((base : ℚ) * a) : ℚ) * sm) ≤
      pyTrunc ((pyTrunc ((base : ℚ) * b) : ℚ) * sm) := by
  have hbq : (0 : ℚ) ≤ (base : ℚ) := by exact_mod_cast hbase
  have hinner : pyTrunc ((base : ℚ) * a) ≤ pyTrunc ((base : ℚ) * b) :=
    pyTrunc_mono (mul_le_mul_of_nonneg_left hab hbq)
  have hcast : ((pyTrunc ((base : ℚ) * a) : ℤ) : ℚ) ≤
      ((pyTrunc ((base : ℚ) * b) : ℤ) : ℚ) := by exact_mod_cast hinner
  exact pyTrunc_mono (mul_le_mul_of_nonneg_right hcast hsm)

lemma pushBounded_length {α : Type} (n : ℕ) (l : List α) (a : α)
    (h : l.length ≤ n) :
    (pushBounded n l a).length = min (l.length + 1) n := by
  unfold pushBounded
  split_ifs with h1
  · simp only [List.length_tail, List.length_append, List.length_singleton] at h1 ⊢
    omega
  · simp only [List.length_append, List.length_singleton] at h1 ⊢
    omega

lemma pushBounded_length_le {α : Type} (n : ℕ) (l : List α) (a : α)
    (h : l.length ≤ n) : (pushBounded n l a).length ≤ n := by
  rw [pushBounded_length n l a h]
  omega

lemma pushBounded_at_capacity {α : Type} (n : ℕ) (l : List α) (a : α)
    (hlen : l.length = n) (hpos : 0 < n) :
    pushBounded n l a = l.tail ++ [a] := by
  unfold pushBounded
  rw [if_pos (by simp [List.length_append]; omega)]
  cases l with
  | nil => simp at hlen; omega
  | cons x xs => simp

lemma process_state (expA : ℚ → ℚ) (st : RealTimeState) (m : TrafficMetrics) :
    (process expA st m).1.window = pushBounded st.window_size st.window m ∧
    (process expA st m).1.window_size = st.window_size ∧
    ((process expA st m).1.last_results = st.last_results ∨
      ∃ r, (process expA st m).1.last_results =
        pushBounded st.window_size st.last_results r) := by
  unfold process
  cases hd : detect expA st.detector m with
  | error e => exact ⟨rfl, rfl, Or.inl rfl⟩
  | ok r => exact ⟨rfl, rfl, Or.inr ⟨_, rfl⟩⟩

lemma processAll_window_length (expA : ℚ → ℚ) (st : RealTimeState)
    (ms : List TrafficMetrics) (h : st.window.length ≤ st.window_size) :
    (processAll expA st ms).window.length =
      min (st.window.length + ms.length) st.window_size ∧
    (processAll expA st ms).window_size = st.window_size := by
  induction ms generalizing st with
  | nil =>
    refine ⟨?_, rfl⟩
    show st.window.length = min (st.window.length + List.length []) st.window_size
    simp only [List.length_nil]
    omega
  | cons m ms ih =>
    obtain ⟨hw, hws, -⟩ := process_state expA st m
    have hlen : (process expA st m).1.window.length =
        min (st.window.length + 1) st.window_size := by
      rw [hw]; exact pushBounded_length _ _ _ h
    have hle : (process expA st m).1.window.length ≤
        (process expA st m).1.window_size := by
      rw [hlen, hws]; omega
    have hrec := ih (process expA st m).1 hle
    constructor
    · show (processAll expA (process expA st m).1 ms).window.length = _
      rw [hrec.1, hlen, hws]
      simp only [List.length_cons]
      omega
    · show (processAll expA (process expA st m).1 ms).window_size = _
      rw [hrec.2, hws]

lemma processAll_length_le (expA : ℚ → ℚ) (st : RealTimeState)
    (ms : List TrafficMetrics) (hw : st.window.length ≤ st.window_size)
    (hr : st.last_results.length ≤ st.window_size) :
    (processAll expA st ms).window.length ≤ st.window_size ∧
    (processAll expA st ms).last_results.length ≤ st.window_size := by
  induction ms generalizing st with
  | nil => exact ⟨hw, hr⟩
  | cons m ms ih =>
    obtain ⟨hwin, hws, hres⟩ := process_state expA st m
    have hw' : (process expA st m).1.window.length ≤
        (process expA st m).1.window_size := by
      rw [hwin, hws]; exact pushBounded_length_le _ _ _ hw
    have hr' : (process expA st m).1.last_results.length ≤
        (process expA st m).1.window_size := by
      rw [hws]
      rcases hres with he | ⟨r, he⟩
      · rw [he]; exact hr
      · rw [he]; exact pushBounded_length_le _ _ _ hr
    have hrec := ih (process expA st m).1 hw' hr'
    rw [hws] at hrec
    exact hrec

lemma tierMultiplier_nonneg (t : TierName) : 0 ≤ tierMultiplier t := by
  cases t <;> norm_num [tierMultiplier]

/-! Concrete instances shared by witnesses and counterexamples. -/

/-- Ten clean training rows whose first feature is `0, 1, ..., 9`. -/
def c1Rows : List RawRow :=
  (List.range 10).map (fun i => ⟨.val (i : ℚ), .val 0, .val 0, .val 0, .val 0⟩)

/-- A detector trained on `c1Rows` with the default contamination 0.1. -/
def c1Detector : AnomalyDetector :=
  (train exFitScaler exFitForest ratSqrt (initDetector (1/10) 2) c1Rows).1

/-- A metrics sample whose decision score falls strictly between 0 and the
calibrated threshold. -/
def c1Metrics : TrafficMetrics := ⟨5, 0, 0, 0, 0⟩

/-- The detection result on `c1Metrics`. -/
def c1Result : AnomalyResult :=
  (exceptToOption (detect exExp c1Detector c1Metrics)).getD defaultAnomalyResult

/-- A profiled endpoint with negligible traffic (p95 = 0, typical burst 1). -/
def c4Profile : EndpointProfile :=
  ⟨"/api/low", "GET", 0, 0, 0, 0, 0, 0, 0, 1, 0⟩

/-- An optimizer holding only `c4Profile`. -/
def c4Optimizer : RateLimitOptimizer :=
  ⟨.balanced, 20, defaultTierConfigs, [("/api/low", c4Profile)], true⟩

/-- The free-tier conservative recommendation for the tiny endpoint. -/
def c4Rec : RateLimitRecommendation :=
  c4Optimizer.recommend "/api/low" .free none (some .conservative)

/-- A busy profiled endpoint (p95 = 100 rpm, typical burst 20). -/
def c4bProfile : EndpointProfile :=
  ⟨"/api/users", "GET", 80, 100, 100, 50, 0, 10, 5000, 20, 0⟩

/-- An optimizer holding only `c4bProfile`. -/
def c4bOptimizer : RateLimitOptimizer :=
  ⟨.balanced, 20, defaultTierConfigs, [("/api/users", c4bProfile)], true⟩

/-- The default-tier balanced recommendation for the busy endpoint. -/
def c4bRec : RateLimitRecommendation :=
  c4bOptimizer.recommend "/api/users" .dflt none none

/-- A profile built from a single minute bucket of 30 requests. -/
def c5Profile : EndpointProfile :=
  buildEndpointProfile ratSqrt "/api/users" "GET" 0 [30] [30] []

/-- Twelve training rows of which three carry an infinite feature, leaving
only nine valid samples after cleaning. -/
def c6Rows : List RawRow :=
  (List.range 9).map (fun i => ⟨.val (i : ℚ), .val 0, .val 0, .val 0, .val 0⟩) ++
    List.replicate 3 ⟨.inf, .val 0, .val 0, .val 0, .val 0⟩

/-- Concrete metric samples for the tracker witnesses. -/
def mA : TrafficMetrics := ⟨1, 1, 1, 1, 0⟩

/-- Second concrete sample. -/
def mB : TrafficMetrics := ⟨2, 2, 2, 2, 0⟩

/-- Third concrete sample. -/
def mC : TrafficMetrics := ⟨3, 3, 3, 3, 0⟩

/-- A tracker with window size 2 (fresh). -/
def c9Tracker : RealTimeState := initRealTime (initDetector (1/10) 2) 2 3

/-- A tracker with window size 2 whose window is at capacity. -/
def c9Full : RealTimeState :=
  ⟨initDetector (1/10) 2, 2, 3, [mA, mB], 0, []⟩

/-! Claim theorems. -/

/-- C2 counterexample: the claim asserts round-to-nice(2340) = 2500, but the
implemented band table (2340 < 5000, so round to the nearest 100) yields
2300. -/
theorem C2_roundToNice_counterexample :
    roundToNice 2340 = 2300 ∧ (2300 : ℤ) ≠ 2500 := by
  constructor
  · with_unfolding_all decide
  · decide

/-- C2 (amended): the round-to-nice function is deterministic and monotone
non-decreasing and follows the band table — inputs below 10 round to the
nearest integer clamped to a minimum of 1, below 50 to the nearest 5, below
100 to the nearest 10, below 500 to the nearest 25, below 1000 to the nearest
50, below 5000 to the nearest 100, and otherwise to the nearest 500; in
particular round-to-nice(23) = 25 and round-to-nice(2340) = 2300. -/
theorem C2_roundToNice_amended :
    (∀ x y : ℚ, x ≤ y → roundToNice x ≤ roundToNice y) ∧
    (∀ v : ℚ, 1 ≤ v → v < 10 →
      1 ≤ roundToNice v ∧ |((roundToNice v : ℤ) : ℚ) - v| ≤ 1/2) ∧
    (∀ v : ℚ, 10 ≤ v → v < 50 →
      (5 : ℤ) ∣ roundToNice v ∧ |((roundToNice v : ℤ) : ℚ) - v| ≤ 5/2) ∧
    (∀ v : ℚ, 50 ≤ v → v < 100 →
      (10 : ℤ) ∣ roundToNice v ∧ |((roundToNice v : ℤ) : ℚ) - v| ≤ 5) ∧
    (∀ v : ℚ, 100 ≤ v → v < 500 →
      (25 : ℤ) ∣ roundToNice v ∧ |((roundToNice v : ℤ) : ℚ) - v| ≤ 25/2) ∧
    (∀ v : ℚ, 500 ≤ v → v < 1000 →
      (50 : ℤ) ∣ roundToNice v ∧ |((roundToNice v : ℤ) : ℚ) - v| ≤ 25) ∧
    (∀ v : ℚ, 1000 ≤ v → v < 5000 →
      (100 : ℤ) ∣ roundToNice v ∧ |((roundToNice v : ℤ) : ℚ) - v| ≤ 50) ∧
    (∀ v : ℚ, 5000 ≤ v →
      (500 : ℤ) ∣ roundToNice v ∧ |((roundToNice v : ℤ) : ℚ) - v| ≤ 250) ∧
    roundToNice 23 = 25 ∧ roundToNice 2340 = 2300 := by
  refine ⟨fun x y h => roundToNice_mono h, ?_, ?_, ?_, ?_, ?_, ?_, ?_,
    by with_unfolding_all decide, by with_unfolding_all decide⟩
  · intro v h1 h2
    have he : roundToNice v = max 1 (pyRound v) := by
      unfold roundToNice
      rw [if_pos h2]
    have hge : (1 : ℤ) ≤ pyRound v := le_pyRound_of_le (by push_cast; linarith)
    constructor
    · rw [he]; exact le_max_left _ _
    · rw [he, max_eq_right hge]
      exact pyRound_close v
  · intro v h1 h2
    have he : roundToNice v = pyRound (v / 5) * 5 := by
      unfold roundToNice
      rw [if_neg (by linarith), if_pos h2]
    refine ⟨by rw [he]; exact dvd_mul_left 5 _, ?_⟩
    rw [he]
    have hc := pyRound_close (v / 5)
    rw [abs_le] at hc ⊢
    push_cast at hc ⊢
    constructor <;> linarith
  · intro v h1 h2
    have he : roundToNice v = pyRound (v / 10) * 10 := by
      unfold roundToNice
      rw [if_neg (by linarith), if_neg (by linarith), if_pos h2]
    refine ⟨by rw [he]; exact dvd_mul_left 10 _, ?_⟩
    rw [he]
    have hc := pyRound_close (v / 10)
    rw [abs_le] at hc ⊢
    push_cast at hc ⊢
    constructor <;> linarith
  · intro v h1 h2
    have he : roundToNice v = pyRound (v / 25) * 25 := by
      unfold roundToNice
      rw [if_neg (by linarith), if_neg (by linarith), if_neg (by linarith),
        if_pos h2]
    refine ⟨by rw [he]; exact dvd_mul_left 25 _, ?_⟩
    rw [he]
    have hc := pyRound_close (v / 25)
    rw [abs_le] at hc ⊢
    push_cast at hc ⊢
    constructor <;> linarith
  · intro v h1 h2
    have he : roundToNice v = pyRound (v / 50) * 50 := by
      unfold roundToNice
      rw [if_neg (by linarith), if_neg (by linarith), if_neg (by linarith),
        if_neg (by linarith), if_pos h2]
    refine ⟨by rw [he]; exact dvd_mul_left 50 _, ?_⟩
    rw [he]
    have hc := pyRound_close (v / 50)
    rw [abs_le] at hc ⊢
    push_cast at hc ⊢
    constructor <;> linarith
  · intro v h1 h2
    have he : roundToNice v = pyRound (v / 100) * 100 := by
      unfold roundToNice
      rw [if_neg (by linarith), if_neg (by linarith), if_neg (by linarith),
        if_neg (by linarith), if_neg (by linarith), if_pos h2]
    refine ⟨by rw [he]; exact dvd_mul_left 100 _, ?_⟩
    rw [he]
    have hc := pyRound_close (v / 100)
    rw [abs_le] at hc ⊢
    push_cast at hc ⊢
    constructor <;> linarith
  · intro v h1
    have he : roundToNice v = pyRound (v / 500) * 500 := by
      unfold roundToNice
      rw [if_neg (by linarith), if_neg (by linarith), if_neg (by linarith),
        if_neg (by linarith), if_neg (by linarith), if_neg (by linarith)]
    refine ⟨by rw [he]; exact dvd_mul_left 500 _, ?_⟩
    rw [he]
    have hc := pyRound_close (v / 500)
    rw [abs_le] at hc ⊢
    push_cast at hc ⊢
    constructor <;> linarith

/-- C2 witness: the amended statement applied at concrete points (monotone
on 7 ≤ 23, and the nearest-5 band at 23). -/
theorem C2_roundToNice_amended_witness :
    roundToNice 7 ≤ roundToNice 23 ∧
    ((5 : ℤ) ∣ roundToNice 23 ∧ |((roundToNice 23 : ℤ) : ℚ) - 23| ≤ 5/2) :=
  ⟨C2_roundToNice_amended.1 7 23 (by norm_num),
   C2_roundToNice_amended.2.2.1 23 (by norm_num) (by norm_num)⟩

/-- C3 counterexample: `recommend_all` on a never-analyzed optimizer does
not fail with a not-trained error — it performs no trained-state check and
returns the empty list normally. -/
theorem C3_recommendAll_counterexample :
    freshOptimizer.is_trained = false ∧
    freshOptimizer.recommendAll .dflt none = [] :=
  ⟨rfl, rfl⟩

/-- C3 (amended): calling detect before any successful training fails with
the model-not-trained error (fatal only to that call), while calling
recommend_all before any traffic analysis does not fail: with no stored
profiles it returns the empty recommendation list. -/
theorem C3_untrained_amended :
    (∀ (expA : ℚ → ℚ) (st : AnomalyDetector) (m : TrafficMetrics),
        st.is_trained = false → detect expA st m = .error .modelNotTrained) ∧
    (∀ (opt : RateLimitOptimizer) (tier : TierName)
        (strategyArg : Option OptimizationStrategy),
        opt.endpoint_profiles = [] → opt.recommendAll tier strategyArg = []) := by
  constructor
  · intro expA st m h
    unfold detect
    rw [h]
    rfl
  · intro opt tier strategyArg h
    unfold RateLimitOptimizer.recommendAll
    rw [h]
    rfl

/-- C3 witness: the amended statement applied to a fresh detector and a
fresh optimizer. -/
theorem C3_untrained_amended_witness :
    detect exExp (initDetector (1/10) 2) ⟨0, 0, 0, 0, 0⟩ =
      .error .modelNotTrained ∧
    freshOptimizer.recommendAll .dflt none = [] :=
  ⟨C3_untrained_amended.1 exExp (initDetector (1/10) 2) ⟨0, 0, 0, 0, 0⟩ rfl,
   C3_untrained_amended.2 freshOptimizer .dflt none rfl⟩

/-- C5 counterexample: with a peak of 30 requests per minute the stored
typical burst size is 1 (the code truncates `peak/60*3 = 1.5` with `int`),
while the claimed formula `max(1, round(peak/60*3))` gives 2. -/
theorem C5_typical_burst_counterexample :
    c5Profile.peak_requests_per_minute = 30 ∧
    c5Profile.typical_burst_size = 1 ∧
    max 1 (pyRound ((c5Profile.peak_requests_per_minute / 60) * 3)) = 2 ∧
    c5Profile.typical_burst_size ≠
      max 1 (pyRound ((c5Profile.peak_requests_per_minute / 60) * 3)) := by
  refine ⟨by with_unfolding_all decide, by with_unfolding_all decide,
    by with_unfolding_all decide, by with_unfolding_all decide⟩

/-- C5 (amended): for every endpoint profile built by the traffic-analysis
pass, the stored typical burst size equals
`max(1, int(peak_requests_per_minute / 60 * 3))`, where `int` truncates
toward zero; in particular it is always at least 1. -/
theorem C5_typical_burst_amended (sqrtA : ℚ → ℚ) (endpoint method : String)
    (uniqueUsers : ℤ) (minuteCounts hourlyCounts : List ℕ)
    (records : List ReqRecord) :
    (buildEndpointProfile sqrtA endpoint method uniqueUsers minuteCounts
      hourlyCounts records).typical_burst_size =
      max 1 (pyTrunc (((buildEndpointProfile sqrtA endpoint method uniqueUsers
        minuteCounts hourlyCounts records).peak_requests_per_minute / 60) * 3)) ∧
    1 ≤ (buildEndpointProfile sqrtA endpoint method uniqueUsers minuteCounts
      hourlyCounts records).typical_burst_size := by
  exact ⟨rfl, le_max_left _ _⟩

/-- C6: training on a dataset that reduces to fewer than 10 valid samples
after median-filling missing values and dropping infinite values fails with
the insufficient-data error and leaves every piece of trained state — the
scaler, the ensemble model, the baselines, the score threshold, and the
trained flag — exactly as it was. -/
theorem C6_train_insufficient (fitScaler : List (List ℚ) → Scaler)
    (fitForest : List (List ℚ) → Forest) (sqrtA : ℚ → ℚ)
    (st : AnomalyDetector) (rows : List RawRow)
    (h : (cleanTrainingData rows).length < 10) :
    train fitScaler fitForest sqrtA st rows = (st, .error .insufficientData) ∧
    (train fitScaler fitForest sqrtA st rows).1.scaler = st.scaler ∧
    (train fitScaler fitForest sqrtA st rows).1.forest = st.forest ∧
    (train fitScaler fitForest sqrtA st rows).1.baselines = st.baselines ∧
    (train fitScaler fitForest sqrtA st rows).1.score_threshold =
      st.score_threshold ∧
    (train fitScaler fitForest sqrtA st rows).1.is_trained = st.is_trained := by
  have he : train fitScaler fitForest sqrtA st rows =
      (st, .error .insufficientData) := by
    unfold train
    rw [if_pos h]
  exact ⟨he, by rw [he], by rw [he], by rw [he], by rw [he], by rw [he]⟩

/-- C6 witness: twelve rows with three infinite cells clean down to nine
samples, and training fails without touching the fresh state. -/
theorem C6_train_insufficient_witness :
    (cleanTrainingData c6Rows).length < 10 ∧
    train exFitScaler exFitForest ratSqrt (initDetector (1/10) 2) c6Rows =
      (initDetector (1/10) 2, .error .insufficientData) :=
  ⟨by decide,
   (C6_train_insufficient exFitScaler exFitForest ratSqrt
     (initDetector (1/10) 2) c6Rows (by decide)).1⟩

/-- C9: with window_size = N, after N + k `process` calls from a fresh
tracker the window holds exactly N samples; from any in-bounds state the
window length and the result-history length never exceed N; and at capacity
the oldest window entry is evicted. -/
theorem C9_window_bounds :
    (∀ (expA : ℚ → ℚ) (d : AnomalyDetector) (ws pt k : ℕ)
        (ms : List TrafficMetrics), ms.length = ws + k →
        (processAll expA (initRealTime d ws pt) ms).window.length = ws) ∧
    (∀ (expA : ℚ → ℚ) (st : RealTimeState) (ms : List TrafficMetrics),
        st.window.length ≤ st.window_size →
        st.last_results.length ≤ st.window_size →
        (processAll expA st ms).window.length ≤ st.window_size ∧
        (processAll expA st ms).last_results.length ≤ st.window_size) ∧
    (∀ (expA : ℚ → ℚ) (st : RealTimeState) (m : TrafficMetrics),
        st.window.length = st.window_size → 0 < st.window_size →
        (process expA st m).1.window = st.window.tail ++ [m]) := by
  refine ⟨?_, ?_, ?_⟩
  · intro expA d ws pt k ms hlen
    have h0 : (initRealTime d ws pt).window.length ≤
        (initRealTime d ws pt).window_size := by
      simp [initRealTime]
    have hw := (processAll_window_length expA (initRealTime d ws pt) ms h0).1
    rw [hw]
    show min (List.length [] + ms.length) ws = ws
    simp only [List.length_nil, hlen]
    omega
  · intro expA st ms hw hr
    exact processAll_length_le expA st ms hw hr
  · intro expA st m hlen hpos
    obtain ⟨hw, -, -⟩ := process_state expA st m
    rw [hw]
    exact pushBounded_at_capacity _ _ _ hlen hpos

/-- C9 witness: a window-size-2 tracker after 3 calls has a window of
exactly 2; bounds hold from the fresh state; and a full window evicts its
oldest entry. -/
theorem C9_window_bounds_witness :
    (processAll exExp (initRealTime (initDetector (1/10) 2) 2 3)
      [mA, mB, mC]).window.length = 2 ∧
    ((processAll exExp c9Tracker [mA]).window.length ≤ c9Tracker.window_size ∧
      (processAll exExp c9Tracker [mA]).last_results.length ≤
        c9Tracker.window_size) ∧
    (process exExp c9Full mC).1.window = c9Full.window.tail ++ [mC] :=
  ⟨C9_window_bounds.1 exExp (initDetector (1/10) 2) 2 3 1 [mA, mB, mC] rfl,
   C9_window_bounds.2.1 exExp c9Tracker [mA] (by decide) (by decide),
   C9_window_bounds.2.2 exExp c9Full mC (by decide) (by decide)⟩

/-- The truncated multiplication chain behind the strategy ordering: the
tier-adjusted limit is fixed and only the strategy multiplier varies. -/
lemma strategy_chain_step {base : ℤ} (hbase : 0 ≤ base) {tm : ℚ} (htm : 0 ≤ tm)
    {s1 s2 : ℚ} (hs : s1 ≤ s2) :
    pyTrunc ((pyTrunc ((base : ℚ) * tm) : ℚ) * s1) ≤
      pyTrunc ((pyTrunc ((base : ℚ) * tm) : ℚ) * s2) := by
  have hta : (0 : ℤ) ≤ pyTrunc ((base : ℚ) * tm) :=
    pyTrunc_nonneg (mul_nonneg (by exact_mod_cast hbase) htm)
  have htaQ : (0 : ℚ) ≤ ((pyTrunc ((base : ℚ) * tm) : ℤ) : ℚ) := by
    exact_mod_cast hta
  exact pyTrunc_mono (mul_le_mul_of_nonneg_left hs htaQ)

/-- C10: whenever a detect call on a trained detector reports a
non-anomalous result, the returned anomaly type and severity are both none
and the explanation is the fixed within-normal-parameters message, even
though a candidate type is always computed internally. -/
theorem C10_non_anomaly_fields (expA : ℚ → ℚ) (st : AnomalyDetector)
    (m : TrafficMetrics) (r : AnomalyResult)
    (hok : detect expA st m = .ok r) (hna : r.is_anomaly = false) :
    r.anomaly_type = none ∧ r.severity = none ∧
    r.explanation = Explanation.withinNormal := by
  unfold detect at hok
  rcases Bool.eq_false_or_eq_true st.is_trained with hb | hb
  · rw [hb] at hok
    simp at hok
    subst hok
    simp at hna
    refine ⟨?_, ?_, ?_⟩ <;> simp [hna, buildExplanation]
  · rw [hb] at hok
    simp at hok

set_option maxHeartbeats 1000000 in
/-- C10 witness: the trained example detector on the mid-range sample is not
anomalous, and indeed carries no type, no severity, and the fixed message. -/
theorem C10_non_anomaly_fields_witness :
    c1Result.anomaly_type = none ∧ c1Result.severity = none ∧
    c1Result.explanation = Explanation.withinNormal :=
  C10_non_anomaly_fields exExp c1Detector c1Metrics c1Result
    (by with_unfolding_all rfl) (by with_unfolding_all decide)

/-- C7: for a fixed endpoint profile, tier, and current limit, the
recommended limit is monotone in strategy: conservative ≤ balanced ≤
permissive. -/
theorem C7_strategy_monotone (opt : RateLimitOptimizer) (endpoint : String)
    (p : EndpointProfile) (tier : TierName) (current_limit : Option ℤ)
    (hp : lookupProfile opt.endpoint_profiles endpoint = some p) :
    (opt.recommend endpoint tier current_limit
        (some .conservative)).recommended_limit ≤
      (opt.recommend endpoint tier current_limit
        (some .balanced)).recommended_limit ∧
    (opt.recommend endpoint tier current_limit
        (some .balanced)).recommended_limit ≤
      (opt.recommend endpoint tier current_limit
        (some .permissive)).recommended_limit := by
  have hbase : (0 : ℤ) ≤ calcBaseLimit opt p :=
    le_trans (by norm_num) (calcBaseLimit_ge_10 opt p)
  simp only [RateLimitOptimizer.recommend, hp, Option.getD_some]
  constructor
  · exact strategy_chain_step hbase (tierMultiplier_nonneg tier)
      (by rw [if_neg (by decide), if_neg (by decide)]; norm_num [strategyMultiplier])
  · exact strategy_chain_step hbase (tierMultiplier_nonneg tier)
      (by rw [if_neg (by decide), if_neg (by decide)]; norm_num [strategyMultiplier])

set_option maxHeartbeats 1000000 in
/-- C7 witness: the strategy chain at the busy profiled endpoint. -/
theorem C7_strategy_monotone_witness :
    (c4bOptimizer.recommend "/api/users" .dflt none
        (some .conservative)).recommended_limit ≤
      (c4bOptimizer.recommend "/api/users" .dflt none
        (some .balanced)).recommended_limit ∧
    (c4bOptimizer.recommend "/api/users" .dflt none
        (some .balanced)).recommended_limit ≤
      (c4bOptimizer.recommend "/api/users" .dflt none
        (some .permissive)).recommended_limit :=
  C7_strategy_monotone c4bOptimizer "/api/users" c4bProfile .dflt none
    (by with_unfolding_all rfl)

/-- C8: for a fixed endpoint (profiled or not) and fixed strategy, with the
default tier configurations, the recommended limit is monotone across the
tiers free, basic, standard, premium, enterprise. -/
theorem C8_tier_monotone (opt : RateLimitOptimizer) (endpoint : String)
    (current_limit : Option ℤ) (strategyArg : Option OptimizationStrategy)
    (hcfg : opt.tier_configs = defaultTierConfigs) :
    (opt.recommend endpoint .free current_limit strategyArg).recommended_limit ≤
      (opt.recommend endpoint .basic current_limit strategyArg).recommended_limit ∧
    (opt.recommend endpoint .basic current_limit strategyArg).recommended_limit ≤
      (opt.recommend endpoint .standard current_limit strategyArg).recommended_limit ∧
    (opt.recommend endpoint .standard current_limit strategyArg).recommended_limit ≤
      (opt.recommend endpoint .premium current_limit strategyArg).recommended_limit ∧
    (opt.recommend endpoint .premium current_limit strategyArg).recommended_limit ≤
      (opt.recommend endpoint .enterprise current_limit strategyArg).recommended_limit := by
  cases hlk : lookupProfile opt.endpoint_profiles endpoint with
  | none =>
    have hsm := strategyMultiplier_nonneg (strategyArg.getD opt.strategy)
    simp only [RateLimitOptimizer.recommend, hlk, generateDefaultRecommendation,
      hcfg, tierLevelOf, defaultTierConfigs]
    refine ⟨?_, ?_, ?_, ?_⟩ <;>
      · apply pyTrunc_mono
        apply mul_le_mul_of_nonneg_right ?_ hsm
        norm_num
  | some p =>
    have hbase : (0 : ℤ) ≤ calcBaseLimit opt p :=
      le_trans (by norm_num) (calcBaseLimit_ge_10 opt p)
    have hsm : 0 ≤ (if strategyArg.getD opt.strategy = .adaptive then
        calcAdaptiveMultiplier p
        else strategyMultiplier (strategyArg.getD opt.strategy)) := by
      split_ifs
      · exact calcAdaptiveMultiplier_nonneg p
      · exact strategyMultiplier_nonneg _
    simp only [RateLimitOptimizer.recommend, hlk]
    refine ⟨?_, ?_, ?_, ?_⟩ <;>
      exact tier_chain_step hbase hsm (by norm_num [tierMultiplier])

/-- C8 witness: the tier chain at an unprofiled endpoint of a fresh default
optimizer. -/
theorem C8_tier_monotone_witness :
    (freshOptimizer.recommend "/x" .free none none).recommended_limit ≤
      (freshOptimizer.recommend "/x" .basic none none).recommended_limit ∧
    (freshOptimizer.recommend "/x" .basic none none).recommended_limit ≤
      (freshOptimizer.recommend "/x" .standard none none).recommended_limit ∧
    (freshOptimizer.recommend "/x" .standard none none).recommended_limit ≤
      (freshOptimizer.recommend "/x" .premium none none).recommended_limit ∧
    (freshOptimizer.recommend "/x" .premium none none).recommended_limit ≤
      (freshOptimizer.recommend "/x" .enterprise none none).recommended_limit :=
  C8_tier_monotone freshOptimizer "/x" none none rfl

set_option maxHeartbeats 1000000 in
/-- C4 counterexample: on the tiny profiled endpoint with the free tier and
the conservative strategy the recommended limit is 3, and the burst before
rounding is the clamp floor 10, which exceeds the recommended limit (the
returned burst is 10 > 3 as well). -/
theorem C4_burst_counterexample :
    c4Rec.recommended_limit = 3 ∧
    burstCandidate c4Profile c4Rec.recommended_limit = 10 ∧
    c4Rec.recommended_burst = 10 ∧
    ¬(burstCandidate c4Profile c4Rec.recommended_limit ≤
        c4Rec.recommended_limit) ∧
    ¬(c4Rec.recommended_burst ≤ c4Rec.recommended_limit) := by
  refine ⟨?_, ?_, ?_, ?_, ?_⟩ <;> with_unfolding_all decide

/-- C4 (amended): for every profiled endpoint, the recommended burst equals
round-to-nice of the clamp of typical_burst_size × 2 between
max(10, recommended_limit // 6) (floor division) and recommended_limit; the
pre-rounding burst does not exceed the recommended limit whenever the
recommended limit is at least 10 (for limits below 10 the floor of 10 can
exceed the limit). -/
theorem C4_burst_amended (opt : RateLimitOptimizer) (endpoint : String)
    (p : EndpointProfile) (tier : TierName) (current_limit : Option ℤ)
    (strategyArg : Option OptimizationStrategy)
    (hp : lookupProfile opt.endpoint_profiles endpoint = some p) :
    (opt.recommend endpoint tier current_limit strategyArg).recommended_burst =
      roundToNice (burstCandidate p
        (opt.recommend endpoint tier current_limit strategyArg).recommended_limit) ∧
    (∀ l : ℤ, burstCandidate p l =
      max (max 10 (pyFloorDiv l 6)) (min (p.typical_burst_size * 2) l)) ∧
    (10 ≤ (opt.recommend endpoint tier current_limit strategyArg).recommended_limit →
      burstCandidate p
        (opt.recommend endpoint tier current_limit strategyArg).recommended_limit ≤
        (opt.recommend endpoint tier current_limit strategyArg).recommended_limit) := by
  refine ⟨?_, fun l => rfl, ?_⟩
  · simp only [RateLimitOptimizer.recommend, hp, calcBurstSize]
  · intro h10
    have h0 : (0 : ℤ) ≤
        (opt.recommend endpoint tier current_limit strategyArg).recommended_limit :=
      le_trans (by norm_num) h10
    unfold burstCandidate
    exact max_le (max_le h10 (le_trans (pyFloorDiv_six_le h0) le_rfl))
      (min_le_right _ _)

set_option maxHeartbeats 1000000 in
/-- C4 witness: the amended statement at the busy endpoint, whose
recommended limit 125 is at least 10. -/
theorem C4_burst_amended_witness :
    c4bRec.recommended_burst =
      roundToNice (burstCandidate c4bProfile c4bRec.recommended_limit) ∧
    burstCandidate c4bProfile c4bRec.recommended_limit ≤
      c4bRec.recommended_limit := by
  have h := C4_burst_amended c4bOptimizer "/api/users" c4bProfile .dflt none
    none (by with_unfolding_all rfl)
  exact ⟨h.1, h.2.2 (by with_unfolding_all decide)⟩

set_option maxHeartbeats 1000000 in
/-- C1 counterexample: a detector trained with contamination 0.1 calibrates
its score threshold to the 90th percentile of the training decision scores
(here 81/10 > 0), yet detect flags anomalies with the ensemble prediction
(raw score < 0): the sample scoring 5 is reported non-anomalous although its
raw score lies below the calibrated threshold, refuting the claimed
equivalence. -/
theorem C1_detect_counterexample :
    c1Detector.is_trained = true ∧
    c1Detector.score_threshold = 81/10 ∧
    detect exExp c1Detector c1Metrics = .ok c1Result ∧
    c1Result.is_anomaly = false ∧
    c1Result.score < c1Detector.score_threshold := by
  refine ⟨by with_unfolding_all decide, by with_unfolding_all decide,
    by with_unfolding_all rfl, by with_unfolding_all decide,
    by with_unfolding_all decide⟩

/-- C1 (amended): for every trained detector and input sample, detect
returns a normalized score in [0, 1], and the anomaly flag is true exactly
when the raw ensemble score is below zero (the ensemble prediction is -1);
the percentile threshold calibrated at training time is stored and reported
but never consulted by detect, whose result is invariant under changing it. -/
theorem C1_detect_amended (expA : ℚ → ℚ) (st : AnomalyDetector)
    (m : TrafficMetrics) (r : AnomalyResult)
    (hok : detect expA st m = .ok r) :
    0 ≤ r.normalized_score ∧ r.normalized_score ≤ 1 ∧
    (r.is_anomaly = true ↔ r.score < 0) ∧
    (∀ t : ℚ, detect expA { st with score_threshold := t } m =
      detect expA st m) := by
  have hthr : ∀ t : ℚ, detect expA { st with score_threshold := t } m =
      detect expA st m := fun t => rfl
  unfold detect at hok
  rcases Bool.eq_false_or_eq_true st.is_trained with hb | hb
  · rw [hb] at hok
    simp at hok
    subst hok
    refine ⟨clip01_nonneg _, clip01_le_one _, ?_, hthr⟩
    simp only [Forest.predict, decide_eq_true_eq]
    split_ifs with hc
    · simp [hc]
    · simp [hc]
  · rw [hb] at hok
    simp at hok

set_option maxHeartbeats 1000000 in
/-- C1 witness: the amended statement at the trained example detector and
the mid-range sample (threshold-invariance instantiated at threshold 0). -/
theorem C1_detect_amended_witness :
    (0 ≤ c1Result.normalized_score ∧ c1Result.normalized_score ≤ 1) ∧
    (c1Result.is_anomaly = true ↔ c1Result.score < 0) ∧
    detect exExp { c1Detector with score_threshold := 0 } c1Metrics =
      detect exExp c1Detector c1Metrics := by
  have h := C1_detect_amended exExp c1Detector c1Metrics c1Result
    (by with_unfolding_all rfl)
  exact ⟨⟨h.1, h.2.1⟩, h.2.2.1, h.2.2.2 0⟩

end Aegis
